import Mathlib

/-!
Verification of the Graph Explorer demo backend
(`backend/app/main.py`): the static evidence-graph store, the
edge-detail lookup, and the two-model prediction engine.

Real numbers of the Python code are modelled as exact rationals (`ℚ`);
all the constants of the program are decimal literals, so every
computation of the program is exact in `ℚ`.
-/

set_option autoImplicit false

namespace GraphExplorer

/-- `ParamSummary` record of `main.py`: effect-size mean, sd and a derived
confidence interval. -/
structure ParamSummary where
  mean : ℚ
  sd : ℚ
  ci_lower : ℚ
  ci_upper : ℚ
deriving DecidableEq, Repr

/-- `EvidenceItem` record of `main.py`: one literature citation attached to an
edge. -/
structure EvidenceItem where
  id : String
  title : String
  summary : String
  effect_direction : String
  population : String
  design : String
  outcome_measures : List String
  doi : Option String := none
  quality : Option String := none
  notes : Option String := none
deriving DecidableEq, Repr

/-- `EdgeDetail` record of `main.py`: full form of an edge, with evidence. -/
structure EdgeDetail where
  id : String
  from_node : String
  to_node : String
  status : String
  param : ParamSummary
  evidence : List EvidenceItem
deriving DecidableEq, Repr

/-- `GraphNode` record of `main.py`. -/
structure GraphNode where
  id : String
  label : String
  level : String
  group : Option String := none
  description : Option String := none
deriving DecidableEq, Repr

/-- `GraphEdge` record of `main.py`: brief form of an edge, without evidence. -/
structure GraphEdge where
  id : String
  from_node : String
  to_node : String
  status : String
  param : ParamSummary
deriving DecidableEq, Repr

/-- `GraphPayload` record of `main.py`: the response of the graph listing. -/
structure GraphPayload where
  nodes : List GraphNode
  edges : List GraphEdge
deriving DecidableEq, Repr

/-- `PredictRequest` record of `main.py`: the four attribute scores. -/
structure PredictRequest where
  wood_coverage : ℚ
  plant_density : ℚ
  spatial_clutter : ℚ
  glare_index : ℚ
deriving DecidableEq, Repr

/-- `NodePrediction` record of `main.py`. -/
structure NodePrediction where
  node_id : String
  label : String
  mean : ℚ
  ci_lower : ℚ
  ci_upper : ℚ
deriving DecidableEq, Repr

/-- `PredictResponse` record of `main.py`. -/
structure PredictResponse where
  model_a : List NodePrediction
  model_b : List NodePrediction
deriving DecidableEq, Repr

/-- The `NODES` list of `main.py` (lines 94-177), in declaration order. -/
def NODES : List GraphNode := [
  { id := "wood_coverage", label := "Wood Coverage", level := "attribute",
    group := some "materials",
    description := some "Proportion of visible wall/ceiling area finished in wood (0-1)." },
  { id := "plant_density", label := "Plant Density", level := "attribute",
    group := some "biophilia",
    description := some "Visible density of indoor plants or green features (0-1)." },
  { id := "spatial_clutter", label := "Spatial Clutter", level := "attribute",
    group := some "layout",
    description := some "Visual and physical clutter / obstruction in the space." },
  { id := "glare_index", label := "Glare Index", level := "attribute",
    group := some "lighting",
    description := some "Subjective glare / harshness of lighting." },
  { id := "perceived_warmth", label := "Perceived Warmth", level := "mediator",
    group := some "perceptual",
    description := some "Subjective thermal / visual warmth of the space." },
  { id := "perceived_naturalness", label := "Perceived Naturalness", level := "mediator",
    group := some "perceptual",
    description := some "Degree to which the space feels natural / biophilic." },
  { id := "cognitive_load", label := "Cognitive Load", level := "mediator",
    group := some "cognitive",
    description := some "Momentary mental effort required to function in the space." },
  { id := "positive_affect", label := "Positive Affect", level := "mediator",
    group := some "affective",
    description := some "Momentary positive mood / calmness / pleasure." },
  { id := "state_anxiety", label := "State Anxiety", level := "outcome",
    group := some "affective",
    description := some "Short-term, situational anxiety level (e.g. STAI-S)." },
  { id := "perceived_stress", label := "Perceived Stress", level := "outcome",
    group := some "affective",
    description := some "Self-reported stress / tension." },
  { id := "task_performance", label := "Task Performance", level := "outcome",
    group := some "cognitive",
    description := some "Performance on a sustained attention / working-memory task." }]

/-- The param helper `p` of `main.py` (line 181): builds a `ParamSummary` with a
symmetric `ci_width * sd` interval. In the Python source `ci_width` is an
optional argument defaulting to `1.96`; every call site uses the default. -/
def p (mean sd ci_width : ℚ) : ParamSummary :=
  { mean := mean, sd := sd,
    ci_lower := mean - ci_width * sd, ci_upper := mean + ci_width * sd }

/-- `register_edge` of `main.py` (lines 188-204): inserts one `EdgeDetail` into
the `EDGES` dict under the key `edge_id`. The dict is modelled as an
association list in insertion order (Python dicts preserve insertion order, and
every registered key is fresh, so each insertion appends). The Python
`evidence or []` default is passed explicitly. -/
def register_edge (edges : List (String × EdgeDetail)) (edge_id from_node to_node : String)
    (mean sd : ℚ) (status : String) (evidence : List EvidenceItem) :
    List (String × EdgeDetail) :=
  edges ++ [(edge_id,
    { id := edge_id, from_node := from_node, to_node := to_node, status := status,
      param := p mean sd 1.96, evidence := evidence })]

/-- The `EDGES` dict of `main.py` (lines 185-430), built by the sequence of
`register_edge` calls, in registration order. -/
def EDGES : List (String × EdgeDetail) :=
  let e : List (String × EdgeDetail) := []
  let e := register_edge e "wood_coverage->perceived_warmth"
    "wood_coverage" "perceived_warmth" 0.45 0.10 "supported"
    [{ id := "li2021_wood_use",
       title := "Effect of the degree of wood use on the visual psychological response of wooden indoor spaces",
       summary := "Medium wood coverage (~35-65%) in interiors was associated with higher ratings of naturalness, warmth, relaxation, and desire to use the space compared to low coverage.",
       effect_direction := "beneficial",
       population := "Adults in controlled visual simulation",
       design := "Within-subjects lab experiment",
       outcome_measures := ["Perceived warmth", "Perceived relaxation"],
       doi := some "10.1007/s00226-021-01320-7",
       quality := some "moderate",
       notes := some "Inverse V-shaped relationship with very high wood coverage reducing comfort." }]
  let e := register_edge e "wood_coverage->perceived_naturalness"
    "wood_coverage" "perceived_naturalness" 0.40 0.12 "supported"
    [{ id := "jalilzadehazhari2019_wood_surfaces",
       title := "Material properties of wooden surfaces used in interiors and their influence on physiological responses",
       summary := "Visual exposure to indoor wooden surfaces generally increased feelings of comfort and naturalness, with some evidence of reduced sympathetic activation.",
       effect_direction := "beneficial",
       population := "University students in interior mock-ups",
       design := "Lab-based exposure study",
       outcome_measures := ["Perceived naturalness", "Comfort", "Physiological arousal"],
       doi := some "10.1080/17480272.2019.1575901",
       quality := some "moderate" }]
  let e := register_edge e "plant_density->perceived_naturalness"
    "plant_density" "perceived_naturalness" 0.50 0.12 "experimentally_validated"
    [{ id := "yin2020_biophilic_vr",
       title := "Effects of biophilic indoor environment on stress and anxiety recovery: A VR experiment",
       summary := "VR offices with biophilic elements (plants, natural materials) produced greater reductions in stress and anxiety compared to a non-biophilic office.",
       effect_direction := "beneficial",
       population := "100 adults in virtual office environments",
       design := "Between-subjects VR experiment",
       outcome_measures := ["State anxiety", "Heart rate variability", "Skin conductance"],
       doi := some "10.1016/j.envint.2019.105427",
       quality := some "high" },
     { id := "lee2015_indoor_plants",
       title := "Interaction with indoor plants may reduce psychological and physiological stress",
       summary := "Active interaction with indoor plants lowered diastolic blood pressure and sympathetic activity relative to a computer task, and increased feelings of comfort and naturalness.",
       effect_direction := "beneficial",
       population := "Young adults (mean age ~25 years)",
       design := "Randomized crossover experiment",
       outcome_measures := ["Heart rate variability", "Blood pressure", "Subjective comfort"],
       doi := some "10.1186/s40101-015-0060-8",
       quality := some "high" }]
  let e := register_edge e "plant_density->positive_affect"
    "plant_density" "positive_affect" 0.35 0.10 "supported"
    [{ id := "yin2020_biophilic_vr_positive",
       title := "Effects of biophilic indoor environment on stress and anxiety recovery: A VR experiment",
       summary := "Participants in biophilic conditions reported more positive mood after stress induction than those in control offices.",
       effect_direction := "beneficial",
       population := "Adults in virtual offices",
       design := "Between-subjects VR experiment",
       outcome_measures := ["State anxiety", "Mood ratings"],
       doi := some "10.1016/j.envint.2019.105427",
       quality := some "high" }]
  let e := register_edge e "spatial_clutter->cognitive_load"
    "spatial_clutter" "cognitive_load" 0.30 0.10 "hypothesized" []
  let e := register_edge e "glare_index->cognitive_load"
    "glare_index" "cognitive_load" 0.35 0.10 "hypothesized" []
  let e := register_edge e "perceived_warmth->positive_affect"
    "perceived_warmth" "positive_affect" 0.25 0.08 "hypothesized" []
  let e := register_edge e "perceived_naturalness->positive_affect"
    "perceived_naturalness" "positive_affect" 0.40 0.09 "supported"
    [{ id := "yin2020_biophilic_vr_mood",
       title := "Effects of biophilic indoor environment on stress and anxiety recovery: A VR experiment",
       summary := "Biophilic interiors improved stress recovery and reduced anxiety, consistent with higher perceived naturalness and restorative quality.",
       effect_direction := "beneficial",
       population := "Adults in virtual offices",
       design := "Between-subjects VR experiment",
       outcome_measures := ["Perceived restorativeness", "State anxiety"],
       doi := some "10.1016/j.envint.2019.105427",
       quality := some "high" }]
  let e := register_edge e "positive_affect->state_anxiety"
    "positive_affect" "state_anxiety" (-0.50) 0.12 "supported" []
  let e := register_edge e "cognitive_load->state_anxiety"
    "cognitive_load" "state_anxiety" 0.30 0.11 "hypothesized" []
  let e := register_edge e "cognitive_load->task_performance"
    "cognitive_load" "task_performance" (-0.35) 0.10 "supported" []
  let e := register_edge e "state_anxiety->task_performance"
    "state_anxiety" "task_performance" (-0.30) 0.10 "supported" []
  let e := register_edge e "perceived_naturalness->perceived_stress"
    "perceived_naturalness" "perceived_stress" (-0.40) 0.10 "supported" []
  let e := register_edge e "positive_affect->perceived_stress"
    "positive_affect" "perceived_stress" (-0.35) 0.10 "supported" []
  e

/-- `get_demo_graph` of `main.py` (lines 433-450): the bulk graph listing.
Returns all nodes and every edge projected to its brief form, iterating
`EDGES.values()` in insertion order. -/
def get_demo_graph : GraphPayload :=
  let edges_brief : List GraphEdge :=
    EDGES.map (fun kv =>
      { id := kv.2.id, from_node := kv.2.from_node, to_node := kv.2.to_node,
        status := kv.2.status, param := kv.2.param })
  { nodes := NODES, edges := edges_brief }

/-- `get_edge_detail` of `main.py` (lines 453-461): exact dict lookup of
`edge_id` in `EDGES`; a missing key raises HTTP 404 with detail
"Edge not found", modelled as `Except.error`. -/
def get_edge_detail (edge_id : String) : Except String EdgeDetail :=
  match EDGES.find? (fun kv => kv.1 == edge_id) with
  | some kv => Except.ok kv.2
  | none => Except.error "Edge not found"

/-- `clip01` of `main.py` (lines 488-489): `max(0.0, min(1.0, x))`. -/
def clip01 (x : ℚ) : ℚ := max 0 (min 1 x)

/-- Local `perceived_warmth` of `predict` (line 479):
`0.3 + 0.8 * w - 0.2 * glare`. -/
def perceived_warmth (r : PredictRequest) : ℚ :=
  0.3 + 0.8 * r.wood_coverage - 0.2 * r.glare_index

/-- Local `perceived_naturalness` of `predict` (line 480). -/
def perceived_naturalness (r : PredictRequest) : ℚ :=
  0.2 + 0.9 * r.wood_coverage + 0.9 * r.plant_density - 0.1 * r.spatial_clutter

/-- Local `cognitive_load` of `predict` (line 481). -/
def cognitive_load (r : PredictRequest) : ℚ :=
  0.5 + 0.4 * r.spatial_clutter + 0.4 * r.glare_index - 0.2 * r.plant_density

/-- Local `positive_affect` of `predict` (line 482). -/
def positive_affect (r : PredictRequest) : ℚ :=
  0.3 + 0.6 * perceived_warmth r + 0.5 * perceived_naturalness r - 0.3 * cognitive_load r

/-- Local `state_anxiety` of `predict` (line 484). -/
def state_anxiety (r : PredictRequest) : ℚ :=
  0.7 - 0.7 * positive_affect r + 0.4 * cognitive_load r

/-- Local `perceived_stress` of `predict` (line 485). -/
def perceived_stress (r : PredictRequest) : ℚ :=
  0.6 - 0.6 * perceived_naturalness r - 0.5 * positive_affect r + 0.3 * cognitive_load r

/-- Local `task_performance` of `predict` (line 486). -/
def task_performance (r : PredictRequest) : ℚ :=
  0.5 + 0.6 * positive_affect r - 0.5 * cognitive_load r - 0.4 * state_anxiety r

/-- Local `synergy` of `predict` (line 516): `0.3 * w * plants`. -/
def synergy (r : PredictRequest) : ℚ :=
  0.3 * r.wood_coverage * r.plant_density

/-- Local `positive_affect_b` of `predict` (line 517). -/
def positive_affect_b (r : PredictRequest) : ℚ :=
  clip01 (positive_affect r + synergy r)

/-- Local `state_anxiety_b` of `predict` (line 518). -/
def state_anxiety_b (r : PredictRequest) : ℚ :=
  clip01 (0.7 - 0.7 * positive_affect_b r + 0.4 * cognitive_load r)

/-- Local `task_performance_b` of `predict` (line 519). -/
def task_performance_b (r : PredictRequest) : ℚ :=
  clip01 (0.5 + 0.6 * positive_affect_b r - 0.5 * cognitive_load r - 0.4 * state_anxiety_b r)

/-- Local `perceived_stress_b` of `predict` (line 520). -/
def perceived_stress_b (r : PredictRequest) : ℚ :=
  clip01 (0.6 - 0.6 * perceived_naturalness r - 0.5 * positive_affect_b r + 0.3 * cognitive_load r)

/-- The `model_a_nodes` list of `predict` (lines 492-500): id, label and
clipped value for the seven reported nodes. -/
def model_a_nodes (r : PredictRequest) : List (String × String × ℚ) := [
  ("perceived_warmth", "Perceived Warmth", clip01 (perceived_warmth r)),
  ("perceived_naturalness", "Perceived Naturalness", clip01 (perceived_naturalness r)),
  ("cognitive_load", "Cognitive Load", clip01 (cognitive_load r)),
  ("positive_affect", "Positive Affect", clip01 (positive_affect r)),
  ("state_anxiety", "State Anxiety", clip01 (state_anxiety r)),
  ("perceived_stress", "Perceived Stress", clip01 (perceived_stress r)),
  ("task_performance", "Task Performance", clip01 (task_performance r))]

/-- The `model_b_nodes` list of `predict` (lines 522-530). -/
def model_b_nodes (r : PredictRequest) : List (String × String × ℚ) := [
  ("perceived_warmth", "Perceived Warmth", clip01 (perceived_warmth r)),
  ("perceived_naturalness", "Perceived Naturalness", clip01 (perceived_naturalness r)),
  ("cognitive_load", "Cognitive Load", clip01 (cognitive_load r)),
  ("positive_affect", "Positive Affect", positive_affect_b r),
  ("state_anxiety", "State Anxiety", state_anxiety_b r),
  ("perceived_stress", "Perceived Stress", perceived_stress_b r),
  ("task_performance", "Task Performance", task_performance_b r)]

/-- Body of the two accumulation loops of `predict` (lines 502-513 and
532-543): one `NodePrediction` with `ci_lower = max(0, val - width)` and
`ci_upper = min(1, val + width)`. -/
def mkPrediction (node_id label : String) (val width : ℚ) : NodePrediction :=
  { node_id := node_id, label := label, mean := val,
    ci_lower := max 0 (val - width), ci_upper := min 1 (val + width) }

/-- `predict` of `main.py` (lines 464-545): Model A with CI half-width 0.15,
Model B with CI half-width 0.12. -/
def predict (request : PredictRequest) : PredictResponse :=
  { model_a := (model_a_nodes request).map (fun t => mkPrediction t.1 t.2.1 t.2.2 0.15),
    model_b := (model_b_nodes request).map (fun t => mkPrediction t.1 t.2.1 t.2.2 0.12) }

/-- Spec-side comparand (§3 of the spec): the brief `GraphEdge` is "a
projection (strips evidence)" of an `EdgeDetail`. -/
def stripEvidence (ed : EdgeDetail) : GraphEdge :=
  { id := ed.id, from_node := ed.from_node, to_node := ed.to_node,
    status := ed.status, param := ed.param }

/-- Spec-side comparand: step 5 of the spec's §4.2 algorithm,
`state_anxiety = 0.7 - 0.7*positive_affect + 0.4*cognitive_load`, as a
standalone formula of its two inputs. -/
def step5_state_anxiety (pa load : ℚ) : ℚ := 0.7 - 0.7 * pa + 0.4 * load

/-- Spec-side comparand: step 6 of the spec's §4.2 algorithm,
`perceived_stress = 0.6 - 0.6*perceived_naturalness - 0.5*positive_affect
+ 0.3*cognitive_load`. -/
def step6_perceived_stress (nat pa load : ℚ) : ℚ :=
  0.6 - 0.6 * nat - 0.5 * pa + 0.3 * load

/-- Spec-side comparand: step 7 of the spec's §4.2 algorithm,
`task_performance = 0.5 + 0.6*positive_affect - 0.5*cognitive_load
- 0.4*state_anxiety`. -/
def step7_task_performance (pa load anx : ℚ) : ℚ :=
  0.5 + 0.6 * pa - 0.5 * load - 0.4 * anx

-- ----------------------------------------------------------------------
-- Helper lemmas
-- ----------------------------------------------------------------------

lemma clip01_nonneg (x : ℚ) : 0 ≤ clip01 x := le_max_left _ _

lemma clip01_le_one (x : ℚ) : clip01 x ≤ 1 := max_le (by norm_num) (min_le_left _ _)

lemma clip01_mono {x y : ℚ} (h : x ≤ y) : clip01 x ≤ clip01 y :=
  max_le_max le_rfl (min_le_min le_rfl h)

lemma clip01_of_mem {x : ℚ} (h0 : 0 ≤ x) (h1 : x ≤ 1) : clip01 x = x := by
  unfold clip01
  rw [min_eq_right h1, max_eq_right h0]

/-- The record built by the `predict` loops is well-formed whenever its value
is already in `[0,1]` and the band half-width is non-negative. -/
lemma mkPrediction_bounds (nid label : String) (v wdt : ℚ)
    (h0 : 0 ≤ v) (h1 : v ≤ 1) (hw : 0 ≤ wdt) :
    (0 ≤ (mkPrediction nid label v wdt).mean ∧ (mkPrediction nid label v wdt).mean ≤ 1) ∧
    ((mkPrediction nid label v wdt).ci_lower ≤ (mkPrediction nid label v wdt).mean ∧
      (mkPrediction nid label v wdt).mean ≤ (mkPrediction nid label v wdt).ci_upper) ∧
    (0 ≤ (mkPrediction nid label v wdt).ci_lower ∧ (mkPrediction nid label v wdt).ci_lower ≤ 1) ∧
    (0 ≤ (mkPrediction nid label v wdt).ci_upper ∧ (mkPrediction nid label v wdt).ci_upper ≤ 1) := by
  have hlo : max 0 (v - wdt) ≤ v := max_le h0 (by linarith)
  have hhi : v ≤ min 1 (v + wdt) := le_min h1 (by linarith)
  exact ⟨⟨h0, h1⟩, ⟨hlo, hhi⟩, ⟨le_max_left _ _, le_trans hlo h1⟩,
    ⟨le_trans h0 hhi, min_le_left _ _⟩⟩

-- ----------------------------------------------------------------------
-- Claims
-- ----------------------------------------------------------------------

/-- Claim C1, counterexample: at the all-zero input the reported
`positive_affect` mean of Model A is not `0.33` as the claim states (the
code computes `0.3 + 0.6*0.3 + 0.5*0.2 - 0.3*0.5 = 0.43`; the spec's
displayed value `0.33` is a miscalculation of its own formula). -/
theorem claim_C1_counterexample :
    ((predict ⟨0, 0, 0, 0⟩).model_a.map (fun q => q.mean)).get? 3 ≠ some 0.33 := by
  simp only [predict, model_a_nodes, List.map, mkPrediction, List.get?]
  norm_num [clip01, min_def, max_def, perceived_warmth, perceived_naturalness,
    cognitive_load, positive_affect]

/-- Claim C1, amended: for the all-zero input the Model A prediction chain is
`perceived_warmth = 0.3`, `perceived_naturalness = 0.2`,
`cognitive_load = 0.5`, `positive_affect = 0.43`, and the downstream step 5-7
values are `state_anxiety = 0.599`, `perceived_stress = 0.415`,
`task_performance = 0.2684`, all exactly (hence to 6 decimal places). -/
theorem claim_C1_amended :
    (predict ⟨0, 0, 0, 0⟩).model_a.map (fun q => q.mean) =
      [0.3, 0.2, 0.5, 0.43, 0.599, 0.415, 0.2684] := by
  simp only [predict, model_a_nodes, List.map, mkPrediction]
  norm_num [clip01, min_def, max_def, perceived_warmth, perceived_naturalness,
    cognitive_load, positive_affect, state_anxiety, perceived_stress, task_performance]

/-- Claim C2: for every input, Model B's reported means are, in order, the
Model A clipped values for warmth, naturalness and load (reused unchanged),
then `positive_affect_b = clip01(positive_affect + 0.3*w*p)`, then the step
5, 6 and 7 formulas of the spec re-evaluated with `positive_affect_b`
substituted for `positive_affect` (naturalness and load reused unchanged),
each result clipped to `[0,1]`; the step 7 re-evaluation consumes the
clipped step 5 result. -/
theorem claim_C2_model_b_recompute (r : PredictRequest) :
    (predict r).model_b.map (fun q => q.mean) =
      [clip01 (perceived_warmth r), clip01 (perceived_naturalness r), clip01 (cognitive_load r),
        positive_affect_b r,
        clip01 (step5_state_anxiety (positive_affect_b r) (cognitive_load r)),
        clip01 (step6_perceived_stress (perceived_naturalness r) (positive_affect_b r)
          (cognitive_load r)),
        clip01 (step7_task_performance (positive_affect_b r) (cognitive_load r)
          (clip01 (step5_state_anxiety (positive_affect_b r) (cognitive_load r))))] ∧
    ((predict r).model_b.map (fun q => q.mean)).take 3 =
      ((predict r).model_a.map (fun q => q.mean)).take 3 ∧
    positive_affect_b r =
      clip01 (positive_affect r + 0.3 * r.wood_coverage * r.plant_density) :=
  ⟨rfl, rfl, rfl⟩

/-- Claim C3: every `ParamSummary` held by the edge registry satisfies
`ci_lower = mean - 1.96*sd` and `ci_upper = mean + 1.96*sd` (exactly, in
`ℚ`). -/
theorem claim_C3_ci_invariant (kv : String × EdgeDetail) (hkv : kv ∈ EDGES) :
    kv.2.param.ci_lower = kv.2.param.mean - 1.96 * kv.2.param.sd ∧
    kv.2.param.ci_upper = kv.2.param.mean + 1.96 * kv.2.param.sd := by
  fin_cases hkv <;> exact ⟨rfl, rfl⟩

/-- Witness for C3 at the registered edge `spatial_clutter->cognitive_load`. -/
theorem claim_C3_witness :
    (p 0.30 0.10 1.96).ci_lower = (p 0.30 0.10 1.96).mean - 1.96 * (p 0.30 0.10 1.96).sd ∧
    (p 0.30 0.10 1.96).ci_upper = (p 0.30 0.10 1.96).mean + 1.96 * (p 0.30 0.10 1.96).sd :=
  claim_C3_ci_invariant
    ("spatial_clutter->cognitive_load",
      { id := "spatial_clutter->cognitive_load", from_node := "spatial_clutter",
        to_node := "cognitive_load", status := "hypothesized",
        param := p 0.30 0.10 1.96, evidence := [] })
    (by simp [EDGES, register_edge])

/-- Claim C4: the edge-detail lookup returns a registered detail stored under
exactly the requested id whenever it succeeds, succeeds whenever the id is
registered, fails with the fixed message "Edge not found" exactly when the id
is absent, and is deterministic. -/
theorem claim_C4_edge_lookup (edge_id : String) :
    (∀ ed, get_edge_detail edge_id = Except.ok ed → (edge_id, ed) ∈ EDGES) ∧
    ((∃ kv ∈ EDGES, kv.1 = edge_id) →
      ∃ ed, get_edge_detail edge_id = Except.ok ed ∧ (edge_id, ed) ∈ EDGES) ∧
    (get_edge_detail edge_id = Except.error "Edge not found" ↔
      ∀ kv ∈ EDGES, kv.1 ≠ edge_id) ∧
    get_edge_detail edge_id = get_edge_detail edge_id := by
  cases h : EDGES.find? (fun kv => kv.1 == edge_id) with
  | some kv =>
    have hok : get_edge_detail edge_id = Except.ok kv.2 := by
      unfold get_edge_detail
      rw [h]
    have hmem : kv ∈ EDGES := List.mem_of_find?_eq_some h
    have hkey : kv.1 = edge_id := by simpa using List.find?_some h
    have hpairmem : (edge_id, kv.2) ∈ EDGES := by
      rw [← hkey]
      exact hmem
    refine ⟨?_, ?_, ?_, rfl⟩
    · intro ed hed
      rw [hok] at hed
      injection hed with h2
      rw [← h2]
      exact hpairmem
    · intro _
      exact ⟨kv.2, hok, hpairmem⟩
    · constructor
      · intro habs
        rw [hok] at habs
        exact Except.noConfusion habs
      · intro hall
        exact absurd hkey (hall kv hmem)
  | none =>
    have herr : get_edge_detail edge_id = Except.error "Edge not found" := by
      unfold get_edge_detail
      rw [h]
    have hall : ∀ kv ∈ EDGES, kv.1 ≠ edge_id := by
      intro kv hkv
      simpa using List.find?_eq_none.mp h kv hkv
    refine ⟨?_, ?_, ?_, rfl⟩
    · intro ed hed
      rw [herr] at hed
      exact Except.noConfusion hed
    · intro ⟨kv, hkv, hk⟩
      exact absurd hk (hall kv hkv)
    · exact ⟨fun _ => hall, fun _ => herr⟩

/-- Witness for C4: looking up the unregistered id "foo->bar" fails with the
fixed message. -/
theorem claim_C4_witness :
    get_edge_detail "foo->bar" = Except.error "Edge not found" :=
  (claim_C4_edge_lookup "foo->bar").2.2.1.mpr (by decide)

/-- Claim C5: for every input (no range restriction), every record of both
models has its mean in `[0,1]`, `ci_lower ≤ mean ≤ ci_upper`, and both bounds
in `[0,1]`. -/
theorem claim_C5_output_bounds (r : PredictRequest) (q : NodePrediction)
    (hq : q ∈ (predict r).model_a ∨ q ∈ (predict r).model_b) :
    (0 ≤ q.mean ∧ q.mean ≤ 1) ∧ (q.ci_lower ≤ q.mean ∧ q.mean ≤ q.ci_upper) ∧
    (0 ≤ q.ci_lower ∧ q.ci_lower ≤ 1) ∧ (0 ≤ q.ci_upper ∧ q.ci_upper ≤ 1) := by
  rcases hq with h | h
  · simp only [predict, List.mem_map] at h
    obtain ⟨t, ht, rfl⟩ := h
    simp only [model_a_nodes, List.mem_cons, List.not_mem_nil, or_false] at ht
    rcases ht with rfl | rfl | rfl | rfl | rfl | rfl | rfl <;>
      exact mkPrediction_bounds _ _ _ _ (clip01_nonneg _) (clip01_le_one _) (by norm_num)
  · simp only [predict, List.mem_map] at h
    obtain ⟨t, ht, rfl⟩ := h
    simp only [model_b_nodes, List.mem_cons, List.not_mem_nil, or_false] at ht
    rcases ht with rfl | rfl | rfl | rfl | rfl | rfl | rfl <;>
      exact mkPrediction_bounds _ _ _ _ (clip01_nonneg _) (clip01_le_one _) (by norm_num)

/-- Witness for C5 at the all-zero input and the first Model A record. -/
theorem claim_C5_witness :
    (0 ≤ (mkPrediction "perceived_warmth" "Perceived Warmth"
        (clip01 (perceived_warmth ⟨0, 0, 0, 0⟩)) 0.15).mean ∧
      (mkPrediction "perceived_warmth" "Perceived Warmth"
        (clip01 (perceived_warmth ⟨0, 0, 0, 0⟩)) 0.15).mean ≤ 1) ∧
    ((mkPrediction "perceived_warmth" "Perceived Warmth"
        (clip01 (perceived_warmth ⟨0, 0, 0, 0⟩)) 0.15).ci_lower ≤
      (mkPrediction "perceived_warmth" "Perceived Warmth"
        (clip01 (perceived_warmth ⟨0, 0, 0, 0⟩)) 0.15).mean ∧
      (mkPrediction "perceived_warmth" "Perceived Warmth"
        (clip01 (perceived_warmth ⟨0, 0, 0, 0⟩)) 0.15).mean ≤
      (mkPrediction "perceived_warmth" "Perceived Warmth"
        (clip01 (perceived_warmth ⟨0, 0, 0, 0⟩)) 0.15).ci_upper) ∧
    (0 ≤ (mkPrediction "perceived_warmth" "Perceived Warmth"
        (clip01 (perceived_warmth ⟨0, 0, 0, 0⟩)) 0.15).ci_lower ∧
      (mkPrediction "perceived_warmth" "Perceived Warmth"
        (clip01 (perceived_warmth ⟨0, 0, 0, 0⟩)) 0.15).ci_lower ≤ 1) ∧
    (0 ≤ (mkPrediction "perceived_warmth" "Perceived Warmth"
        (clip01 (perceived_warmth ⟨0, 0, 0, 0⟩)) 0.15).ci_upper ∧
      (mkPrediction "perceived_warmth" "Perceived Warmth"
        (clip01 (perceived_warmth ⟨0, 0, 0, 0⟩)) 0.15).ci_upper ≤ 1) :=
  claim_C5_output_bounds ⟨0, 0, 0, 0⟩ _ (Or.inl (by simp [predict, model_a_nodes]))

/-- Claim C6: with non-negative `wood_coverage` and `plant_density` the
synergy term is non-negative, and Model B's reported `positive_affect` mean
(position 3 of the output) is at least Model A's. -/
theorem claim_C6_synergy_monotone (r : PredictRequest)
    (hw : 0 ≤ r.wood_coverage) (hp : 0 ≤ r.plant_density) :
    ((predict r).model_a.map (fun q => q.mean)).get? 3 =
      some (clip01 (positive_affect r)) ∧
    ((predict r).model_b.map (fun q => q.mean)).get? 3 =
      some (positive_affect_b r) ∧
    clip01 (positive_affect r) ≤ positive_affect_b r := by
  refine ⟨rfl, rfl, ?_⟩
  have hs : 0 ≤ synergy r := by
    unfold synergy
    exact mul_nonneg (mul_nonneg (by norm_num) hw) hp
  exact clip01_mono (by linarith)

/-- Witness for C6 at the all-zero input. -/
theorem claim_C6_witness :
    ((predict ⟨0, 0, 0, 0⟩).model_a.map (fun q => q.mean)).get? 3 =
      some (clip01 (positive_affect ⟨0, 0, 0, 0⟩)) ∧
    ((predict ⟨0, 0, 0, 0⟩).model_b.map (fun q => q.mean)).get? 3 =
      some (positive_affect_b ⟨0, 0, 0, 0⟩) ∧
    clip01 (positive_affect ⟨0, 0, 0, 0⟩) ≤ positive_affect_b ⟨0, 0, 0, 0⟩ :=
  claim_C6_synergy_monotone ⟨0, 0, 0, 0⟩ le_rfl le_rfl

/-- Claim C7: for every input, each model reports exactly seven records, in
the fixed order warmth, naturalness, load, affect, anxiety, stress,
performance, and the `(node_id, label)` pairs coincide with the `(id, label)`
pairs of the registry's mediator and outcome nodes, in declaration order. -/
theorem claim_C7_output_shape (r : PredictRequest) :
    (predict r).model_a.length = 7 ∧ (predict r).model_b.length = 7 ∧
    (predict r).model_a.map (fun q => (q.node_id, q.label)) =
      (NODES.filter (fun n => n.level == "mediator" || n.level == "outcome")).map
        (fun n => (n.id, n.label)) ∧
    (predict r).model_b.map (fun q => (q.node_id, q.label)) =
      (NODES.filter (fun n => n.level == "mediator" || n.level == "outcome")).map
        (fun n => (n.id, n.label)) ∧
    (predict r).model_a.map (fun q => q.node_id) =
      ["perceived_warmth", "perceived_naturalness", "cognitive_load", "positive_affect",
        "state_anxiety", "perceived_stress", "task_performance"] :=
  ⟨rfl, rfl, rfl, rfl, rfl⟩

/-- Claim C8: every edge of the bulk graph listing references node ids that
occur in the listed node set. -/
theorem claim_C8_referential_integrity (e : GraphEdge) (he : e ∈ get_demo_graph.edges) :
    (∃ n ∈ get_demo_graph.nodes, n.id = e.from_node) ∧
    (∃ n ∈ get_demo_graph.nodes, n.id = e.to_node) := by
  fin_cases he <;> exact ⟨by decide, by decide⟩

/-- Witness for C8 at the first listed edge. -/
theorem claim_C8_witness :
    (∃ n ∈ get_demo_graph.nodes, n.id = "wood_coverage") ∧
    (∃ n ∈ get_demo_graph.nodes, n.id = "perceived_warmth") :=
  claim_C8_referential_integrity
    { id := "wood_coverage->perceived_warmth", from_node := "wood_coverage",
      to_node := "perceived_warmth", status := "supported", param := p 0.45 0.10 1.96 }
    (by simp [get_demo_graph, EDGES, register_edge])

/-- Claim C9: the bulk listing is exactly the registry mapped through the
evidence-stripping projection, and the edge-detail lookup of every
registered id returns that id's full detail, so each brief edge agrees with
its detail on id, endpoints, status and param and differs only by the
omitted evidence. -/
theorem claim_C9_brief_projection :
    get_demo_graph.edges = EDGES.map (fun kv => stripEvidence kv.2) ∧
    ∀ kv ∈ EDGES, get_edge_detail kv.1 = Except.ok kv.2 := by
  refine ⟨rfl, ?_⟩
  intro kv hkv
  fin_cases hkv <;> rfl

/-- Witness for C9 at the registered edge `spatial_clutter->cognitive_load`. -/
theorem claim_C9_witness :
    get_edge_detail "spatial_clutter->cognitive_load" =
      Except.ok
        { id := "spatial_clutter->cognitive_load", from_node := "spatial_clutter",
          to_node := "cognitive_load", status := "hypothesized",
          param := p 0.30 0.10 1.96, evidence := [] } :=
  claim_C9_brief_projection.2
    ("spatial_clutter->cognitive_load",
      { id := "spatial_clutter->cognitive_load", from_node := "spatial_clutter",
        to_node := "cognitive_load", status := "hypothesized",
        param := p 0.30 0.10 1.96, evidence := [] })
    (by simp [EDGES, register_edge])

/-- Claim C10: when the synergy term vanishes (`w*p = 0`) and the shared
unclipped `positive_affect` and `state_anxiety` both lie in `[0,1]`, the
seven Model B means coincide with the seven Model A means. -/
theorem claim_C10_zero_synergy_agreement (r : PredictRequest)
    (hwp : r.wood_coverage * r.plant_density = 0)
    (hpa0 : 0 ≤ positive_affect r) (hpa1 : positive_affect r ≤ 1)
    (hax0 : 0 ≤ state_anxiety r) (hax1 : state_anxiety r ≤ 1) :
    (predict r).model_b.map (fun q => q.mean) =
      (predict r).model_a.map (fun q => q.mean) := by
  have hsyn : synergy r = 0 := by
    unfold synergy
    rw [mul_assoc, hwp, mul_zero]
  have hpab : positive_affect_b r = positive_affect r := by
    unfold positive_affect_b
    rw [hsyn, add_zero, clip01_of_mem hpa0 hpa1]
  have hanxb : state_anxiety_b r = state_anxiety r := by
    unfold state_anxiety_b
    rw [hpab]
    exact clip01_of_mem hax0 hax1
  have hstressb : perceived_stress_b r = clip01 (perceived_stress r) := by
    unfold perceived_stress_b
    rw [hpab]
    rfl
  have hperfb : task_performance_b r = clip01 (task_performance r) := by
    unfold task_performance_b
    rw [hpab, hanxb]
    rfl
  simp only [predict, model_a_nodes, model_b_nodes, List.map, mkPrediction]
  rw [hpab, hanxb, hstressb, hperfb, clip01_of_mem hpa0 hpa1, clip01_of_mem hax0 hax1]

/-- Witness for C10 at the all-zero input, where the shared unclipped
`positive_affect` is 0.43 and `state_anxiety` is 0.599. -/
theorem claim_C10_witness :
    (predict ⟨0, 0, 0, 0⟩).model_b.map (fun q => q.mean) =
      (predict ⟨0, 0, 0, 0⟩).model_a.map (fun q => q.mean) :=
  claim_C10_zero_synergy_agreement ⟨0, 0, 0, 0⟩ (by norm_num)
    (by norm_num [positive_affect, perceived_warmth, perceived_naturalness, cognitive_load])
    (by norm_num [positive_affect, perceived_warmth, perceived_naturalness, cognitive_load])
    (by norm_num [state_anxiety, positive_affect, perceived_warmth, perceived_naturalness,
      cognitive_load])
    (by norm_num [state_anxiety, positive_affect, perceived_warmth, perceived_naturalness,
      cognitive_load])

end GraphExplorer
